import Mathlib

/-!
Verification of the prepared-statement binding engine of `mysql+++.h`
(namespace `daotk::mysql`, classes `stmt_bind_detail::my_bind*`,
`prepared_stmt::mysql_bind_set` and `prepared_stmt`).

Shallow embedding conventions:
* A `MYSQL_BIND` wire descriptor is a record of the fields the binding
  engine reads or writes.  The raw `buffer` pointer is abstracted to where
  it points (`BufPtr`): nowhere (after `memset`), at the bound application
  value's storage, or at the binder's private staging scalar.
  `bind->length = &bind->length_value` and `bind->is_null =
  &bind->is_null_value` are modelled by the booleans `length_set` /
  `is_null_set`: they decide whether the engine's row write-back reaches
  `length_value` / `is_null_value`.
* `std::string` is a byte sequence, `List Nat`;
  `std::string::resize n` keeps the first `n` bytes and value-initialises
  (zero) the rest.
* Each `my_bind<T>` subclass is one constructor of `Wrapper`, carrying the
  application value its `data` pointer refers to plus any private staging
  state (`pdata`).  The two parallel vectors `_binds_mysql` / `_wrappers`
  of `mysql_bind_set` are modelled as one list of pairs (slot `i` pairs
  descriptor `i` with wrapper `i`, exactly the association `set_variable`
  establishes via `wrap->bind = &_binds_mysql[idx]`).
* A null wrapper pointer (slot never passed to `set_variable`) is `none`;
  dispatching a hook through it is undefined behaviour, modelled by the
  hook returning `none`.  Likewise `optional::value()` on an empty
  optional is undefined behaviour.
* The MySQL C API is an external collaborator; its outcomes
  (`mysql_stmt_bind_param`, `mysql_stmt_execute`, `mysql_stmt_bind_result`,
  `mysql_stmt_fetch`, `mysql_stmt_fetch_column`, `mysql_stmt_prepare`,
  row lengths and null flags) are supplied by engine oracle records.
-/

/-- `enum_field_types` values used by the binding engine.  `decimal_` is
the numeric value 0, i.e. what `memset(bind, 0, ...)` leaves in
`buffer_type`. -/
inductive FieldTy where
  | decimal_
  | tiny
  | short_
  | long_
  | longlong
  | float_
  | double_
  | string_
  deriving Repr, DecidableEq

/-- Where a descriptor's `buffer` pointer points. -/
inductive BufPtr where
  | null
  | app
  | staging
  deriving Repr, DecidableEq

/-- The fields of `MYSQL_BIND` that the binding engine touches. -/
structure MYSQL_BIND where
  buffer : BufPtr
  buffer_length : Nat
  length_value : Nat
  is_null_value : Bool
  is_unsigned : Bool
  buffer_type : FieldTy
  /-- `bind->length == &bind->length_value` -/
  length_set : Bool
  /-- `bind->is_null == &bind->is_null_value` -/
  is_null_set : Bool
  deriving Repr, DecidableEq

/-- `memset(bind, 0x00, sizeof(MYSQL_BIND))`. -/
def zeroBind : MYSQL_BIND :=
  { buffer := .null, buffer_length := 0, length_value := 0,
    is_null_value := false, is_unsigned := false, buffer_type := .decimal_,
    length_set := false, is_null_set := false }

/-- `std::string` contents as bytes. -/
abbrev Str := List Nat

/-- `std::string::resize n`: keep the first `n` bytes, value-initialise
(zero) any bytes added. -/
def strResize (s : Str) (n : Nat) : Str :=
  s.take n ++ List.replicate (n - s.length) 0

/-- The `my_bind<T>` wrapper variants, each carrying the application value
its `data` pointer refers to and any private staging state.
* `num`: `my_number_bind<mysql_type, T>` (also covers `bool`); `data` is
  the application scalar.
* `optNum`: `my_optional_number_bind<mysql_type, T>`; `data` is the
  application `optional<T>`, `pdata` the private staging scalar.
* `str`: `my_bind<std::string>`; `data` is the application string.
* `optStr`: `my_bind<optional<std::string>>`. -/
inductive Wrapper where
  | num (ty : FieldTy) (unsigned : Bool) (data : Int)
  | optNum (ty : FieldTy) (unsigned : Bool) (data : Option Int) (pdata : Int)
  | str (data : Str)
  | optStr (data : Option Str)
  deriving Repr, DecidableEq

namespace Wrapper

/-- `pre_execute` of each variant, returning the updated descriptor and
wrapper state.
* `my_number_bind::pre_execute` calls `update()`: memset, point `buffer`
  at the application scalar, set type/unsigned flags.
* `my_optional_number_bind::pre_execute`: memset; if the optional holds a
  value copy it into `pdata`; point `buffer` at `pdata`; set
  `is_null_value = data->has_value()` (as written in the source).
* `my_bind<std::string>::pre_execute`: memset, alias the string's storage
  and exact size (the `data == nullptr` branch is unreachable:
  `set_variable` always sets `wrap->data = &arg`).
* `my_bind<optional<std::string>>::pre_execute`: alias the contained
  string when present, else only set the null flag. -/
def pre_execute : MYSQL_BIND → Wrapper → MYSQL_BIND × Wrapper
  | _, .num ty u d =>
      ({ zeroBind with
          buffer := .app, buffer_type := ty,
          is_null_value := false, is_unsigned := u }, .num ty u d)
  | _, .optNum ty u d p =>
      let p' := (match d with | some v => v | none => p)
      ({ zeroBind with
          buffer := .staging, buffer_type := ty,
          is_null_value := d.isSome, is_unsigned := u }, .optNum ty u d p')
  | _, .str s =>
      ({ zeroBind with
          buffer := .app, buffer_length := s.length,
          buffer_type := .string_, is_null_value := false,
          length_value := s.length, length_set := true, is_null_set := true },
       .str s)
  | _, .optStr d =>
      match d with
      | some s =>
        ({ zeroBind with
            buffer := .app, buffer_length := s.length,
            buffer_type := .string_, is_null_value := false,
            length_value := s.length, length_set := true, is_null_set := true },
         .optStr (some s))
      | none =>
        ({ zeroBind with
            is_null_value := true,
            length_set := true, is_null_set := true }, .optStr none)

/-- `post_execute`: the base-class no-op for every variant. -/
def post_execute : MYSQL_BIND → Wrapper → MYSQL_BIND × Wrapper
  | b, w => (b, w)

/-- `pre_fetch` of each variant.
* numbers: `update()` again (for `my_number_bind`), or point at the
  staging scalar and register `is_null` (for the optional variant).
* `my_bind<std::string>::pre_fetch`: `data->resize(1)` (the provisional
  1-byte buffer), alias it, register `length` and `is_null`.
* `my_bind<optional<std::string>>::pre_fetch`: `*data = std::string()`
  then `data->value().resize(1)`, alias it, register `length`/`is_null`. -/
def pre_fetch : MYSQL_BIND → Wrapper → MYSQL_BIND × Wrapper
  | _, .num ty u d =>
      ({ zeroBind with
          buffer := .app, buffer_type := ty,
          is_null_value := false, is_unsigned := u }, .num ty u d)
  | _, .optNum ty u d p =>
      ({ zeroBind with
          buffer := .staging, buffer_type := ty,
          is_unsigned := u, is_null_set := true }, .optNum ty u d p)
  | _, .str s =>
      let s' := strResize s 1
      ({ zeroBind with
          buffer_type := .string_, buffer := .app,
          buffer_length := s'.length, is_null_value := false,
          length_set := true, is_null_set := true }, .str s')
  | _, .optStr _ =>
      let s' := strResize [] 1
      ({ zeroBind with
          buffer_type := .string_, buffer := .app,
          buffer_length := s'.length, is_null_value := false,
          length_set := true, is_null_set := true }, .optStr (some s'))

/-- `post_fetch` of each variant: updated descriptor, updated wrapper,
and the "needs refetch" flag.  `none` models undefined behaviour
(`optional::value()` on an empty optional).
* base class (numbers): return `false`.
* `my_optional_number_bind`: null flag set → `data->reset()`, else
  `*data = pdata`; always `false`.
* `my_bind<std::string>`: `length_value > 0` → resize to that exact
  length, repoint `buffer`/`buffer_length`, return `true`; else
  `data->clear()`, return `false`.
* `my_bind<optional<std::string>>`: null flag set → `data->reset()`,
  `false`; else the string logic on `data->value()`. -/
def post_fetch : MYSQL_BIND → Wrapper → Option (MYSQL_BIND × Wrapper × Bool)
  | b, .num ty u d => some (b, .num ty u d, false)
  | b, .optNum ty u _d p =>
      if b.is_null_value then some (b, .optNum ty u none p, false)
      else some (b, .optNum ty u (some p) p, false)
  | b, .str s =>
      if 0 < b.length_value then
        let s' := strResize s b.length_value
        some ({ b with
                 buffer := .app, buffer_length := s'.length }, .str s', true)
      else some (b, .str [], false)
  | b, .optStr d =>
      if b.is_null_value then some (b, .optStr none, false)
      else
        match d with
        | none => none
        | some s =>
          if 0 < b.length_value then
            let s' := strResize s b.length_value
            some ({ b with
                     buffer := .app, buffer_length := s'.length },
                  .optStr (some s'), true)
          else some (b, .optStr (some []), false)

/-- `post_refetch`: the base-class no-op for every variant. -/
def post_refetch : MYSQL_BIND → Wrapper → MYSQL_BIND × Wrapper
  | b, w => (b, w)

/-- Wrappers on which `post_fetch` is defined (everything except an
`optional<std::string>` wrapper whose optional is empty, where the
non-null branch would call `value()` on an empty optional). -/
def pf_safe : Wrapper → Bool
  | .optStr none => false
  | _ => true

end Wrapper

theorem strResize_length (s : Str) (n : Nat) : (strResize s n).length = n := by
  simp only [strResize, List.length_append, List.length_take,
    List.length_replicate]
  omega

theorem pre_fetch_pf_safe (b : MYSQL_BIND) (w : Wrapper) :
    ((Wrapper.pre_fetch b w).2).pf_safe = true := by
  cases w <;> simp [Wrapper.pre_fetch, Wrapper.pf_safe]

theorem post_fetch_isSome_of_pf_safe (b : MYSQL_BIND) (w : Wrapper)
    (h : w.pf_safe = true) : (Wrapper.post_fetch b w).isSome = true := by
  cases w with
  | num ty u d => simp [Wrapper.post_fetch]
  | optNum ty u d p =>
      simp only [Wrapper.post_fetch]
      split <;> simp
  | str s =>
      simp only [Wrapper.post_fetch]
      split <;> simp
  | optStr d =>
      cases d with
      | none => simp [Wrapper.pf_safe] at h
      | some s =>
          simp only [Wrapper.post_fetch]
          split
          · simp
          · split <;> simp

/-- One slot of a `mysql_bind_set`: descriptor `_binds_mysql[i]` paired
with wrapper pointer `_wrappers[i]` (`none` = null `unique_ptr`, i.e. the
slot was never passed to `set_variable`). -/
abbrev Slot := MYSQL_BIND × Option Wrapper

/-- `for (auto& e : _wrappers) e->pre_execute();` — dispatches through
every wrapper pointer unconditionally; a null wrapper is a null-pointer
dereference (`none`). -/
def bsPreExecute : List Slot → Option (List Slot)
  | [] => some []
  | (_, none) :: _ => none
  | (b, some w) :: rest =>
      let r := Wrapper.pre_execute b w
      (bsPreExecute rest).map (fun out => (r.1, some r.2) :: out)

/-- `for (auto& e : _wrappers) e->post_execute();` — every hook is the
base-class no-op, but the dispatch still dereferences each pointer. -/
def bsPostExecute : List Slot → Option (List Slot)
  | [] => some []
  | (_, none) :: _ => none
  | (b, some w) :: rest =>
      let r := Wrapper.post_execute b w
      (bsPostExecute rest).map (fun out => (r.1, some r.2) :: out)

/-- `for (auto& e : _wrappers) e->pre_fetch();` -/
def bsPreFetch : List Slot → Option (List Slot)
  | [] => some []
  | (_, none) :: _ => none
  | (b, some w) :: rest =>
      let r := Wrapper.pre_fetch b w
      (bsPreFetch rest).map (fun out => (r.1, some r.2) :: out)

/-- The loop of `mysql_bind_set::post_fetch`: call `post_fetch` on every
wrapper in index order (first argument = index of the head slot),
collecting the indices that returned `true`. -/
def bsPostFetch : Nat → List Slot → Option (List Slot × List Nat)
  | _, [] => some ([], [])
  | _, (_, none) :: _ => none
  | i, (b, some w) :: rest =>
      match Wrapper.post_fetch b w with
      | none => none
      | some (b', w', rf) =>
          match bsPostFetch (i + 1) rest with
          | none => none
          | some (out, idxs) =>
              some ((b', some w') :: out, if rf then i :: idxs else idxs)

/-- `for (auto& e : items) _wrappers[e]->post_refetch();` — the hook is a
no-op for every variant, but each listed index is dereferenced (a null
wrapper, or `vector::operator[]` out of range, is undefined). -/
def bsPostRefetch (slots : List Slot) : List Nat → Option (List Slot)
  | [] => some slots
  | i :: rest =>
      if h : i < slots.length then
        match (slots.get ⟨i, h⟩).2 with
        | none => none
        | some _ => bsPostRefetch slots rest
      else none

/-- After a successful `mysql_stmt_fetch`, the engine writes each
column's true data length through `bind->length` and its null flag
through `bind->is_null` — exactly for the descriptors that registered
those pointers.  `rlen i` / `rnull i` are the engine-reported length and
null flag of column `i`; the first argument is the index of the head. -/
def bsWriteBack (rlen : Nat → Nat) (rnull : Nat → Bool) :
    Nat → List Slot → List Slot
  | _, [] => []
  | i, (b, w) :: rest =>
      ({ b with
          length_value := if b.length_set then rlen i else b.length_value,
          is_null_value := if b.is_null_set then rnull i else b.is_null_value },
       w) :: bsWriteBack rlen rnull (i + 1) rest

/-- `prepared_stmt::mysql_bind_set`: the two parallel vectors
`_binds_mysql` / `_wrappers`, as a single list of per-index pairs. -/
structure mysql_bind_set where
  slots : List Slot
  deriving Repr, DecidableEq

namespace mysql_bind_set

/-- `mysql_bind_set(std::size_t size)`: both vectors `resize(size)` —
value-initialised descriptors and null wrapper pointers. -/
def create (n : Nat) : mysql_bind_set :=
  ⟨List.replicate n (zeroBind, none)⟩

/-- `std::size_t size()` (`_wrappers.size()`; both vectors always have
the same length). -/
def size (bs : mysql_bind_set) : Nat :=
  bs.slots.length

/-- Every slot's wrapper pointer is non-null. -/
def fully_bound (bs : mysql_bind_set) : Bool :=
  bs.slots.all (fun s => s.2.isSome)

def pre_execute (bs : mysql_bind_set) : Option mysql_bind_set :=
  (bsPreExecute bs.slots).map mysql_bind_set.mk

def post_execute (bs : mysql_bind_set) : Option mysql_bind_set :=
  (bsPostExecute bs.slots).map mysql_bind_set.mk

def pre_fetch (bs : mysql_bind_set) : Option mysql_bind_set :=
  (bsPreFetch bs.slots).map mysql_bind_set.mk

def post_fetch (bs : mysql_bind_set) : Option (mysql_bind_set × List Nat) :=
  (bsPostFetch 0 bs.slots).map (fun r => (⟨r.1⟩, r.2))

def post_refetch (bs : mysql_bind_set) (items : List Nat) :
    Option mysql_bind_set :=
  (bsPostRefetch bs.slots items).map mysql_bind_set.mk

def writeBack (bs : mysql_bind_set) (rlen : Nat → Nat) (rnull : Nat → Bool) :
    mysql_bind_set :=
  ⟨bsWriteBack rlen rnull 0 bs.slots⟩

/-- The helper replacing `_wrappers[idx] = std::move(wrap)` after
`wrap->data = &arg; wrap->bind = &_binds_mysql[idx]`: install wrapper `w`
at index `idx`, leaving every descriptor and every other slot unchanged. -/
def setWrapper : List Slot → Nat → Wrapper → List Slot
  | [], _, _ => []
  | s :: rest, 0, w => (s.1, some w) :: rest
  | s :: rest, n + 1, w => s :: setWrapper rest n w

/-- `mysql_bind_set::set_variable(idx, arg)`: throws
`std::out_of_range("Invalid binding index")` when `idx >= _wrappers.size()`
(before touching any state), otherwise installs a freshly constructed
wrapper at `idx`. -/
def set_variable (bs : mysql_bind_set) (idx : Nat) (w : Wrapper) :
    Except String mysql_bind_set :=
  if bs.slots.length ≤ idx then .error "Invalid binding index"
  else .ok ⟨setWrapper bs.slots idx w⟩

end mysql_bind_set

/-- Outcomes of the engine calls made by the `prepared_stmt` constructor:
`mysql_stmt_init` (null on out-of-memory), `mysql_stmt_prepare`
(`some msg` = rejection with `mysql_stmt_error` message `msg`),
`mysql_stmt_param_count`, and `mysql_stmt_result_metadata`
(`none` = the statement produces no result set, `some n` = metadata with
`mysql_num_fields` = `n`). -/
structure PrepEngine where
  init_ok : Bool
  prepare_err : Option String
  param_count : Nat
  result_meta : Option Nat

/-- Errors thrown by the `prepared_stmt` constructor. -/
inductive PrepError where
  | bad_alloc
  | runtime_error (msg : String)
  deriving Repr, DecidableEq

/-- `prepared_stmt`: the statement's two bind sets (the engine handle and
connection reference live on the oracle side). -/
structure prepared_stmt where
  param_binds : mysql_bind_set
  result_binds : mysql_bind_set
  deriving Repr, DecidableEq

namespace prepared_stmt

/-- The `prepared_stmt` constructor body (run under the connection lock):
`mysql_stmt_init` failure throws `std::bad_alloc`; `mysql_stmt_prepare`
failure throws `std::runtime_error("Failed to prepare stmt: " + msg)`;
otherwise `param_binds` is sized to `mysql_stmt_param_count` and, when
`mysql_stmt_result_metadata` is non-null, `result_binds` to
`mysql_num_fields` of it (else it keeps its initial size 0). -/
def construct (eng : PrepEngine) : Except PrepError prepared_stmt :=
  if eng.init_ok = false then .error .bad_alloc
  else
    match eng.prepare_err with
    | some m => .error (.runtime_error ("Failed to prepare stmt: " ++ m))
    | none =>
        .ok { param_binds := mysql_bind_set.create eng.param_count,
              result_binds :=
                match eng.result_meta with
                | some n => mysql_bind_set.create n
                | none => mysql_bind_set.create 0 }

/-- Outcomes of the engine calls made by `execute()`:
`mysql_stmt_bind_param` and `mysql_stmt_execute` (`true` = returned 0). -/
structure ExecEngine where
  bind_param_ok : Bool
  execute_ok : Bool

/-- `prepared_stmt::execute` (run under the connection lock):
`param_binds.pre_execute()`; `mysql_stmt_bind_param` failure → `false`;
`mysql_stmt_execute` failure → `false`; else `param_binds.post_execute()`
and `true`.  `none` models the undefined null-wrapper dispatch. -/
def execute (eng : ExecEngine) (st : prepared_stmt) :
    Option (Bool × prepared_stmt) :=
  match st.param_binds.pre_execute with
  | none => none
  | some pb1 =>
      if eng.bind_param_ok = false then some (false, { st with param_binds := pb1 })
      else if eng.execute_ok = false then some (false, { st with param_binds := pb1 })
      else
        match pb1.post_execute with
        | none => none
        | some pb2 => some (true, { st with param_binds := pb2 })

/-- Return value of `mysql_stmt_fetch`: `0`, `MYSQL_DATA_TRUNCATED`,
`MYSQL_NO_DATA`, or any other error. -/
inductive FetchRC where
  | success
  | truncated
  | noData
  | err
  deriving Repr, DecidableEq

/-- Outcomes of the engine calls made by `fetch()`:
`mysql_stmt_bind_result`, the `mysql_stmt_fetch` return code, the
engine-reported per-column true lengths and null flags (written through
the registered `length` / `is_null` pointers), and per-column
`mysql_stmt_fetch_column` outcomes. -/
structure FetchEngine where
  bind_result_ok : Bool
  fetch_rc : FetchRC
  row_len : Nat → Nat
  row_null : Nat → Bool
  fetch_column_ok : Nat → Bool

/-- `prepared_stmt::fetch` (run under the connection lock):
`result_binds.pre_fetch()`; `mysql_stmt_bind_result` failure → `false`;
`mysql_stmt_fetch`; if the return code is `0` or `MYSQL_DATA_TRUNCATED`:
the engine has written lengths/null flags (`writeBack`), then
`result_binds.post_fetch()` yields the refetch indices; for each such
index `mysql_stmt_fetch_column` — failure → `false`; else
`result_binds.post_refetch(refetch)` and `true`.  Any other return code →
`false`. -/
def fetch (eng : FetchEngine) (st : prepared_stmt) :
    Option (Bool × prepared_stmt) :=
  match st.result_binds.pre_fetch with
  | none => none
  | some rb1 =>
      if eng.bind_result_ok = false then
        some (false, { st with result_binds := rb1 })
      else
        match eng.fetch_rc with
        | .noData => some (false, { st with result_binds := rb1 })
        | .err => some (false, { st with result_binds := rb1 })
        | _ =>
            let rb1w := rb1.writeBack eng.row_len eng.row_null
            match rb1w.post_fetch with
            | none => none
            | some (rb2, refetch) =>
                match refetch.find? (fun i => eng.fetch_column_ok i = false) with
                | some _ => some (false, { st with result_binds := rb2 })
                | none =>
                    match rb2.post_refetch refetch with
                    | none => none
                    | some rb3 => some (true, { st with result_binds := rb3 })

end prepared_stmt

/-- Slots on which the whole `post_fetch` pass is defined: every wrapper
pointer non-null and every wrapper `pf_safe`. -/
def slotsPFSafe (slots : List Slot) : Bool :=
  slots.all (fun s => match s.2 with | some w => w.pf_safe | none => false)

theorem bsPreExecute_eq_none (slots : List Slot)
    (h : slots.all (fun s => s.2.isSome) = false) :
    bsPreExecute slots = none := by
  induction slots with
  | nil => simp at h
  | cons s rest ih =>
      obtain ⟨b, ow⟩ := s
      cases ow with
      | none => rfl
      | some w =>
          simp only [List.all_cons, Option.isSome_some, Bool.true_and] at h
          simp [bsPreExecute, ih h]

theorem bsPreExecute_eq_some (slots : List Slot)
    (h : slots.all (fun s => s.2.isSome) = true) :
    ∃ out, bsPreExecute slots = some out ∧
      out.all (fun s => s.2.isSome) = true := by
  induction slots with
  | nil => exact ⟨[], rfl, rfl⟩
  | cons s rest ih =>
      obtain ⟨b, ow⟩ := s
      cases ow with
      | none => simp at h
      | some w =>
          simp only [List.all_cons, Option.isSome_some, Bool.true_and] at h
          obtain ⟨out, hout, hall⟩ := ih h
          refine ⟨((Wrapper.pre_execute b w).1, some (Wrapper.pre_execute b w).2)
            :: out, ?_, ?_⟩
          · simp [bsPreExecute, hout]
          · simp [hall]

theorem bsPostExecute_eq_some (slots : List Slot)
    (h : slots.all (fun s => s.2.isSome) = true) :
    bsPostExecute slots = some slots := by
  induction slots with
  | nil => rfl
  | cons s rest ih =>
      obtain ⟨b, ow⟩ := s
      cases ow with
      | none => simp at h
      | some w =>
          simp only [List.all_cons, Option.isSome_some, Bool.true_and] at h
          simp [bsPostExecute, ih h, Wrapper.post_execute]

theorem bsPreFetch_eq_none (slots : List Slot)
    (h : slots.all (fun s => s.2.isSome) = false) :
    bsPreFetch slots = none := by
  induction slots with
  | nil => simp at h
  | cons s rest ih =>
      obtain ⟨b, ow⟩ := s
      cases ow with
      | none => rfl
      | some w =>
          simp only [List.all_cons, Option.isSome_some, Bool.true_and] at h
          simp [bsPreFetch, ih h]

theorem bsPreFetch_eq_some (slots : List Slot)
    (h : slots.all (fun s => s.2.isSome) = true) :
    ∃ out, bsPreFetch slots = some out ∧ slotsPFSafe out = true := by
  induction slots with
  | nil => exact ⟨[], rfl, rfl⟩
  | cons s rest ih =>
      obtain ⟨b, ow⟩ := s
      cases ow with
      | none => simp at h
      | some w =>
          simp only [List.all_cons, Option.isSome_some, Bool.true_and] at h
          obtain ⟨out, hout, hsafe⟩ := ih h
          refine ⟨((Wrapper.pre_fetch b w).1, some (Wrapper.pre_fetch b w).2)
            :: out, ?_, ?_⟩
          · simp [bsPreFetch, hout]
          · simp [slotsPFSafe, List.all_cons, pre_fetch_pf_safe b w]
            simpa [slotsPFSafe] using hsafe

theorem slotsPFSafe_all_isSome (slots : List Slot)
    (h : slotsPFSafe slots = true) :
    slots.all (fun s => s.2.isSome) = true := by
  induction slots with
  | nil => rfl
  | cons s rest ih =>
      obtain ⟨b, ow⟩ := s
      cases ow with
      | none => simp [slotsPFSafe] at h
      | some w =>
          simp only [slotsPFSafe, List.all_cons] at h
          rw [Bool.and_eq_true] at h
          simp only [List.all_cons, Option.isSome_some, Bool.true_and]
          exact ih (by simpa [slotsPFSafe] using h.2)

theorem bsWriteBack_slotsPFSafe (rlen : Nat → Nat) (rnull : Nat → Bool) :
    ∀ (i : Nat) (slots : List Slot),
      slotsPFSafe (bsWriteBack rlen rnull i slots) = slotsPFSafe slots := by
  intro i slots
  induction slots generalizing i with
  | nil => rfl
  | cons s rest ih =>
      obtain ⟨b, w⟩ := s
      simp only [bsWriteBack, slotsPFSafe, List.all_cons]
      rw [← slotsPFSafe, ← slotsPFSafe, ih (i + 1)]

theorem bsPostFetch_eq_none : ∀ (i : Nat) (slots : List Slot),
    slots.all (fun s => s.2.isSome) = false → bsPostFetch i slots = none := by
  intro i slots
  induction slots generalizing i with
  | nil => intro h; simp at h
  | cons s rest ih =>
      intro h
      obtain ⟨b, ow⟩ := s
      cases ow with
      | none => rfl
      | some w =>
          simp only [List.all_cons, Option.isSome_some, Bool.true_and] at h
          cases hpf : Wrapper.post_fetch b w with
          | none => simp [bsPostFetch, hpf]
          | some r =>
              obtain ⟨b', w', rf⟩ := r
              simp [bsPostFetch, hpf, ih (i + 1) h]

theorem bsPostFetch_eq_some : ∀ (i : Nat) (slots : List Slot),
    slotsPFSafe slots = true →
    ∃ out idxs, bsPostFetch i slots = some (out, idxs) ∧
      out.all (fun s => s.2.isSome) = true ∧
      (∀ j ∈ idxs, j < i + slots.length) ∧ out.length = slots.length := by
  intro i slots
  induction slots generalizing i with
  | nil => intro _; exact ⟨[], [], rfl, rfl, by simp, rfl⟩
  | cons s rest ih =>
      intro h
      obtain ⟨b, ow⟩ := s
      cases ow with
      | none => simp [slotsPFSafe] at h
      | some w =>
          simp only [slotsPFSafe, List.all_cons] at h
          rw [Bool.and_eq_true] at h
          have hsafe : w.pf_safe = true := by simpa using h.1
          have hrest : slotsPFSafe rest = true := by
            simpa [slotsPFSafe] using h.2
          cases hpf : Wrapper.post_fetch b w with
          | none =>
              have := post_fetch_isSome_of_pf_safe b w hsafe
              rw [hpf] at this
              simp at this
          | some r =>
              obtain ⟨b', w', rf⟩ := r
              obtain ⟨out, idxs, hrec, hall, hbound, hlen⟩ := ih (i + 1) hrest
              refine ⟨(b', some w') :: out, if rf then i :: idxs else idxs,
                ?_, ?_, ?_, ?_⟩
              · simp [bsPostFetch, hpf, hrec]
              · simp [hall]
              · intro j hj
                simp only [List.length_cons]
                cases rf with
                | true =>
                    rw [if_pos rfl] at hj
                    rcases List.mem_cons.mp hj with hji | hji
                    · omega
                    · have := hbound j hji; omega
                | false =>
                    rw [if_neg (by simp)] at hj
                    have := hbound j hj; omega
              · simp [hlen]

theorem bsPostRefetch_eq_some (slots : List Slot)
    (hall : slots.all (fun s => s.2.isSome) = true) :
    ∀ idxs, (∀ j ∈ idxs, j < slots.length) →
      bsPostRefetch slots idxs = some slots := by
  intro idxs
  induction idxs with
  | nil => intro _; rfl
  | cons i rest ih =>
      intro hb
      have hi : i < slots.length := hb i (by simp)
      have hmem : (slots.get ⟨i, hi⟩).2.isSome = true := by
        rw [List.all_eq_true] at hall
        exact hall _ (slots.get_mem i hi)
      cases hw : (slots.get ⟨i, hi⟩).2 with
      | none => rw [hw] at hmem; simp at hmem
      | some w =>
          have hrec := ih (fun j hj => hb j (List.mem_cons_of_mem _ hj))
          unfold bsPostRefetch
          rw [dif_pos hi, hw]
          exact hrec

/-- C1 (status: code_bug).  The claim says
`my_optional_number_bind::pre_execute` clears the descriptor's null flag
when the bound optional holds a value and sets it when the optional is
empty.  The source assigns `bind->is_null_value = data->has_value()`,
which is exactly inverted: evaluated at the optional holding `5`, the
staging scalar does receive the copy, but the null flag comes out `true`;
evaluated at the empty optional, the null flag comes out `false`. -/
theorem C1_optional_param_null_flag_inverted :
    (Wrapper.pre_execute zeroBind
      (.optNum .tiny false (some 5) 0)).1.is_null_value = true ∧
    (Wrapper.pre_execute zeroBind
      (.optNum .tiny false none 0)).1.is_null_value = false ∧
    (Wrapper.pre_execute zeroBind (.optNum .tiny false (some 5) 0)).2 =
      .optNum .tiny false (some 5) 5 := by
  decide

/-- C2, counterexample.  The claim says the string binder's `post_fetch`
signals refetch=true exactly when the engine-reported length exceeds the
provisional buffer.  Concretely: after `pre_fetch` the provisional buffer
has length 1; with an engine-reported length of 1 (a 1-byte string, which
fits that buffer, so the claim demands refetch=false) the source's
`post_fetch` — `if (bind->length_value > 0)` — still signals `true`. -/
theorem C2_counterexample :
    (Wrapper.pre_fetch zeroBind (.str [])).1.buffer_length = 1 ∧
    (Wrapper.post_fetch
        { (Wrapper.pre_fetch zeroBind (.str [])).1 with length_value := 1 }
        (Wrapper.pre_fetch zeroBind (.str [])).2).map (fun r => r.2.2) =
      some true ∧
    ¬ (1 > (Wrapper.pre_fetch zeroBind (.str [])).1.buffer_length) := by
  decide

/-- C2, amended: for string and nullable-string result slots,
`post_fetch` signals refetch=true exactly when the engine-reported length
is positive (also when a 1-byte value exactly fits the provisional
buffer), in which case it resizes the owned buffer to that exact length
and repoints the descriptor at it; when the reported length is zero it
finalizes immediately to the empty string and signals false. -/
theorem C2_string_post_fetch_refetch (b : MYSQL_BIND) (s : Str) (k : Nat) :
    Wrapper.post_fetch { b with length_value := k + 1 } (.str s) =
      some ({ b with
               length_value := k + 1, buffer := .app,
               buffer_length := k + 1 },
            .str (strResize s (k + 1)), true) ∧
    Wrapper.post_fetch { b with length_value := k + 1, is_null_value := false }
        (.optStr (some s)) =
      some ({ b with
               length_value := k + 1, is_null_value := false,
               buffer := .app, buffer_length := k + 1 },
            .optStr (some (strResize s (k + 1))), true) ∧
    (strResize s (k + 1)).length = k + 1 ∧
    Wrapper.post_fetch { b with length_value := 0 } (.str s) =
      some ({ b with length_value := 0 }, .str [], false) ∧
    Wrapper.post_fetch { b with length_value := 0, is_null_value := false }
        (.optStr (some s)) =
      some ({ b with length_value := 0, is_null_value := false },
            .optStr (some []), false) := by
  refine ⟨?_, ?_, strResize_length s (k + 1), ?_, ?_⟩ <;>
    simp [Wrapper.post_fetch, strResize_length]

/-- C6: for nullable numeric and nullable string result slots, when the
descriptor's null flag is set after the engine fetch, `post_fetch` clears
the bound application optional and signals false (a null never triggers a
refetch); when it is clear, the staged scalar is copied into the optional
(for the nullable numeric binder). -/
theorem C6_null_result_clears_optional (b : MYSQL_BIND) (ty : FieldTy)
    (u : Bool) (d : Option Int) (p : Int) (ds : Option Str) :
    Wrapper.post_fetch { b with is_null_value := true } (.optNum ty u d p) =
      some ({ b with is_null_value := true }, .optNum ty u none p, false) ∧
    Wrapper.post_fetch { b with is_null_value := true } (.optStr ds) =
      some ({ b with is_null_value := true }, .optStr none, false) ∧
    Wrapper.post_fetch { b with is_null_value := false } (.optNum ty u d p) =
      some ({ b with is_null_value := false }, .optNum ty u (some p) p,
            false) := by
  refine ⟨?_, ?_, ?_⟩ <;> simp [Wrapper.post_fetch]

/-- C9: the string binder's `pre_fetch` resizes the bound application
string to exactly one byte (keeping at most its first byte) and sets the
descriptor's buffer length to exactly 1, whatever the string held before;
the nullable-string binder's `pre_fetch` overwrites the bound optional
with a fresh one-byte string (`[0]`) regardless of its previous state. -/
theorem C9_pre_fetch_one_byte_provisional (b : MYSQL_BIND) (s : Str)
    (d : Option Str) :
    Wrapper.pre_fetch b (.str s) =
      ({ zeroBind with
          buffer_type := .string_, buffer := .app, buffer_length := 1,
          length_set := true, is_null_set := true },
       .str (strResize s 1)) ∧
    (strResize s 1).length = 1 ∧
    Wrapper.pre_fetch b (.optStr d) =
      ({ zeroBind with
          buffer_type := .string_, buffer := .app, buffer_length := 1,
          length_set := true, is_null_set := true },
       .optStr (some [0])) := by
  refine ⟨?_, strResize_length s 1, ?_⟩
  · simp [Wrapper.pre_fetch, strResize, zeroBind]
    omega
  · simp [Wrapper.pre_fetch, strResize, zeroBind]

theorem setWrapper_length (l : List Slot) (n : Nat) (w : Wrapper) :
    (mysql_bind_set.setWrapper l n w).length = l.length := by
  induction l generalizing n with
  | nil => rfl
  | cons s rest ih =>
      cases n with
      | zero => rfl
      | succ m => simp [mysql_bind_set.setWrapper, ih]

theorem setWrapper_get?_ne (l : List Slot) (n j : Nat) (w : Wrapper)
    (h : j ≠ n) :
    (mysql_bind_set.setWrapper l n w).get? j = l.get? j := by
  induction l generalizing n j with
  | nil => rfl
  | cons s rest ih =>
      cases n with
      | zero =>
          cases j with
          | zero => exact absurd rfl h
          | succ jj => rfl
      | succ m =>
          cases j with
          | zero => rfl
          | succ jj =>
              simpa [mysql_bind_set.setWrapper] using ih m jj (by omega)

theorem setWrapper_get?_self (l : List Slot) (n : Nat) (w : Wrapper)
    (h : n < l.length) :
    ∃ s, l.get? n = some s ∧
      (mysql_bind_set.setWrapper l n w).get? n = some (s.1, some w) := by
  induction l generalizing n with
  | nil => simp at h
  | cons hd rest ih =>
      cases n with
      | zero => exact ⟨hd, rfl, rfl⟩
      | succ m =>
          obtain ⟨s, h1, h2⟩ := ih m (by simpa using h)
          exact ⟨s, by simpa using h1,
            by simpa [mysql_bind_set.setWrapper] using h2⟩

theorem mysql_bind_set.size_create (n : Nat) :
    (mysql_bind_set.create n).size = n := by
  simp [mysql_bind_set.create, mysql_bind_set.size]

/-- C5: `set_variable(index, reference)` on a Bind Set with slot count `n`
fails with the out-of-range error for every `index ≥ n` (the throw happens
before any state is touched, so the pure model returns only the error);
for every `index < n` it installs a freshly constructed binder at exactly
that index: the slot count is unchanged, every other slot is unchanged,
and the descriptor at `index` is unchanged while its binder is replaced. -/
theorem C5_set_variable_range (bs : mysql_bind_set) (idx : Nat)
    (w : Wrapper) :
    (bs.size ≤ idx → bs.set_variable idx w = .error "Invalid binding index") ∧
    (idx < bs.size → ∃ bs', bs.set_variable idx w = .ok bs' ∧
      bs'.size = bs.size ∧
      (∀ j, j ≠ idx → bs'.slots.get? j = bs.slots.get? j) ∧
      ∃ s, bs.slots.get? idx = some s ∧
        bs'.slots.get? idx = some (s.1, some w)) := by
  constructor
  · intro h
    have h' : bs.slots.length ≤ idx := h
    unfold mysql_bind_set.set_variable
    rw [if_pos h']
  · intro h
    have hlt : ¬ (bs.slots.length ≤ idx) := Nat.not_le.mpr h
    obtain ⟨s, h1, h2⟩ := setWrapper_get?_self bs.slots idx w h
    refine ⟨⟨mysql_bind_set.setWrapper bs.slots idx w⟩, ?_, ?_, ?_, s, h1, h2⟩
    · unfold mysql_bind_set.set_variable
      rw [if_neg hlt]
    · simp [mysql_bind_set.size, setWrapper_length]
    · intro j hj
      exact setWrapper_get?_ne bs.slots idx j w hj

/-- Witness for C5: a two-slot Bind Set rejects index 5 and accepts
index 1. -/
theorem C5_set_variable_range_witness :
    ((mysql_bind_set.create 2).set_variable 5 (.str []) =
      .error "Invalid binding index") ∧
    (∃ bs', (mysql_bind_set.create 2).set_variable 1 (.str []) = .ok bs' ∧
      bs'.size = (mysql_bind_set.create 2).size ∧
      (∀ j, j ≠ 1 → bs'.slots.get? j = (mysql_bind_set.create 2).slots.get? j) ∧
      ∃ s, (mysql_bind_set.create 2).slots.get? 1 = some s ∧
        bs'.slots.get? 1 = some (s.1, some (.str []))) :=
  ⟨(C5_set_variable_range (mysql_bind_set.create 2) 5 (.str [])).1 (by decide),
   (C5_set_variable_range (mysql_bind_set.create 2) 1 (.str [])).2 (by decide)⟩

/-- C7: with `mysql_stmt_init` succeeding, a preparation rejected by the
engine makes construction fail with a `runtime_error` carrying the
engine's message (never an `.ok` statement); on successful preparation
the parameter Bind Set is sized to the engine-reported parameter count,
and the result Bind Set to the result-column count when the statement
produces rows, else it stays at size 0. -/
theorem C7_preparation (eng : PrepEngine) (hinit : eng.init_ok = true) :
    (∀ m, eng.prepare_err = some m →
      prepared_stmt.construct eng =
        .error (.runtime_error ("Failed to prepare stmt: " ++ m)) ∧
      ∀ st, prepared_stmt.construct eng ≠ .ok st) ∧
    (eng.prepare_err = none → ∃ st, prepared_stmt.construct eng = .ok st ∧
      st.param_binds.size = eng.param_count ∧
      (∀ n, eng.result_meta = some n → st.result_binds.size = n) ∧
      (eng.result_meta = none → st.result_binds.size = 0)) := by
  constructor
  · intro m hm
    have heq : prepared_stmt.construct eng =
        .error (.runtime_error ("Failed to prepare stmt: " ++ m)) := by
      simp [prepared_stmt.construct, hinit, hm]
    refine ⟨heq, fun st hst => ?_⟩
    rw [heq] at hst
    exact Except.noConfusion hst
  · intro hn
    cases hr : eng.result_meta with
    | none =>
        refine ⟨⟨mysql_bind_set.create eng.param_count,
          mysql_bind_set.create 0⟩, ?_, ?_, ?_, ?_⟩
        · simp [prepared_stmt.construct, hinit, hn, hr]
        · simp [mysql_bind_set.size_create]
        · intro n hn2
          cases hn2
        · intro _
          simp [mysql_bind_set.size_create]
    | some k =>
        refine ⟨⟨mysql_bind_set.create eng.param_count,
          mysql_bind_set.create k⟩, ?_, ?_, ?_, ?_⟩
        · simp [prepared_stmt.construct, hinit, hn, hr]
        · simp [mysql_bind_set.size_create]
        · intro n hn2
          injection hn2 with hk
          rw [← hk]
          simp [mysql_bind_set.size_create]
        · intro habs
          cases habs

/-- Witness for C7: one engine that rejects the SQL with message
"bad SQL", one that accepts with 2 parameters and no result set. -/
theorem C7_preparation_witness :
    (prepared_stmt.construct ⟨true, some "bad SQL", 0, none⟩ =
      .error (.runtime_error ("Failed to prepare stmt: " ++ "bad SQL")) ∧
      ∀ st, prepared_stmt.construct ⟨true, some "bad SQL", 0, none⟩ ≠
        .ok st) ∧
    (∃ st, prepared_stmt.construct ⟨true, none, 2, none⟩ = .ok st ∧
      st.param_binds.size = 2 ∧
      (∀ n, (none : Option Nat) = some n → st.result_binds.size = n) ∧
      ((none : Option Nat) = none → st.result_binds.size = 0)) :=
  ⟨(C7_preparation ⟨true, some "bad SQL", 0, none⟩ rfl).1 "bad SQL" rfl,
   (C7_preparation ⟨true, none, 2, none⟩ rfl).2 rfl⟩

/-- C8: a freshly constructed Bind Set holds a null binder in every slot
(so a nonempty fresh set is not fully bound); the phase passes
`pre_execute`, `pre_fetch` and `post_fetch` dispatch through every slot's
binder pointer with no guard, so on any set with an unbound slot all
three are undefined (null-pointer dereference, modelled `none`), while on
a fully bound set `pre_execute` and `pre_fetch` are defined. -/
theorem C8_unbound_slot_dispatch :
    (∀ n, ∀ s ∈ (mysql_bind_set.create n).slots, s.2 = none) ∧
    (∀ bs : mysql_bind_set, bs.fully_bound = false →
      bs.pre_execute = none ∧ bs.pre_fetch = none ∧ bs.post_fetch = none) ∧
    (∀ bs : mysql_bind_set, bs.fully_bound = true →
      bs.pre_execute.isSome = true ∧ bs.pre_fetch.isSome = true) ∧
    (∀ n, 0 < n → (mysql_bind_set.create n).fully_bound = false) := by
  refine ⟨?_, ?_, ?_, ?_⟩
  · intro n s hs
    rw [mysql_bind_set.create, List.mem_replicate] at hs
    rw [hs.2]
  · intro bs h
    have h' : bs.slots.all (fun s => s.2.isSome) = false := h
    exact ⟨by simp [mysql_bind_set.pre_execute, bsPreExecute_eq_none _ h'],
           by simp [mysql_bind_set.pre_fetch, bsPreFetch_eq_none _ h'],
           by simp [mysql_bind_set.post_fetch, bsPostFetch_eq_none 0 _ h']⟩
  · intro bs h
    obtain ⟨o1, e1, _⟩ := bsPreExecute_eq_some bs.slots h
    obtain ⟨o2, e2, _⟩ := bsPreFetch_eq_some bs.slots h
    exact ⟨by simp [mysql_bind_set.pre_execute, e1],
           by simp [mysql_bind_set.pre_fetch, e2]⟩
  · intro n hn
    cases n with
    | zero => omega
    | succ m => simp [mysql_bind_set.create, mysql_bind_set.fully_bound]

/-- Witness for C8: the fresh one-slot set is not fully bound and
dispatching `pre_execute` on it is undefined. -/
theorem C8_unbound_slot_dispatch_witness :
    (mysql_bind_set.create 1).fully_bound = false ∧
    (mysql_bind_set.create 1).pre_execute = none :=
  ⟨C8_unbound_slot_dispatch.2.2.2 1 (by decide),
   (C8_unbound_slot_dispatch.2.1 (mysql_bind_set.create 1)
     (C8_unbound_slot_dispatch.2.2.2 1 (by decide))).1⟩

theorem mysql_bind_set.pre_execute_defined (bs : mysql_bind_set)
    (h : bs.fully_bound = true) :
    ∃ pb1, bs.pre_execute = some pb1 ∧ pb1.fully_bound = true := by
  obtain ⟨out, hout, hall⟩ := bsPreExecute_eq_some bs.slots h
  exact ⟨⟨out⟩, by simp [mysql_bind_set.pre_execute, hout], hall⟩

theorem mysql_bind_set.post_execute_noop (bs : mysql_bind_set)
    (h : bs.fully_bound = true) : bs.post_execute = some bs := by
  simp [mysql_bind_set.post_execute, bsPostExecute_eq_some bs.slots h]

theorem mysql_bind_set.pre_fetch_defined (bs : mysql_bind_set)
    (h : bs.fully_bound = true) :
    ∃ rb1, bs.pre_fetch = some rb1 ∧ slotsPFSafe rb1.slots = true := by
  obtain ⟨out, hout, hsafe⟩ := bsPreFetch_eq_some bs.slots h
  exact ⟨⟨out⟩, by simp [mysql_bind_set.pre_fetch, hout], hsafe⟩

theorem mysql_bind_set.writeBack_pf_safe (bs : mysql_bind_set)
    (rlen : Nat → Nat) (rnull : Nat → Bool) :
    slotsPFSafe (bs.writeBack rlen rnull).slots = slotsPFSafe bs.slots := by
  simp [mysql_bind_set.writeBack, bsWriteBack_slotsPFSafe]

theorem mysql_bind_set.post_fetch_defined (bs : mysql_bind_set)
    (h : slotsPFSafe bs.slots = true) :
    ∃ rb2 idxs, bs.post_fetch = some (rb2, idxs) ∧
      rb2.fully_bound = true ∧ rb2.slots.length = bs.slots.length ∧
      ∀ j ∈ idxs, j < bs.slots.length := by
  obtain ⟨out, idxs, heq, hall, hb, hlen⟩ := bsPostFetch_eq_some 0 bs.slots h
  refine ⟨⟨out⟩, idxs, ?_, hall, hlen, fun j hj => by simpa using hb j hj⟩
  simp [mysql_bind_set.post_fetch, heq]

theorem mysql_bind_set.post_refetch_noop (bs : mysql_bind_set)
    (hall : bs.fully_bound = true) (idxs : List Nat)
    (hb : ∀ j ∈ idxs, j < bs.slots.length) :
    bs.post_refetch idxs = some bs := by
  simp [mysql_bind_set.post_refetch,
    bsPostRefetch_eq_some bs.slots hall idxs hb]

/-- C4: on a statement whose parameter slots are all bound, `execute()`
always runs the parameter Bind Set's `pre_execute` (handing the
descriptor array to the engine); on engine-level failure of parameter
binding or of execution it evaluates to `false` — a value, not an
exception, and the statement state (still fully bound) is reusable for a
subsequent attempt; on engine success it runs `post_execute` (a no-op)
and evaluates to `true`. -/
theorem C4_execute_outcomes (eng : prepared_stmt.ExecEngine)
    (st : prepared_stmt) (hfb : st.param_binds.fully_bound = true) :
    ∃ pb1, st.param_binds.pre_execute = some pb1 ∧ pb1.fully_bound = true ∧
      ((eng.bind_param_ok = false ∨ eng.execute_ok = false) →
        prepared_stmt.execute eng st =
          some (false, { st with param_binds := pb1 })) ∧
      (eng.bind_param_ok = true → eng.execute_ok = true →
        pb1.post_execute = some pb1 ∧
        prepared_stmt.execute eng st =
          some (true, { st with param_binds := pb1 })) := by
  obtain ⟨pb1, hpre, hfb1⟩ := mysql_bind_set.pre_execute_defined _ hfb
  have hpost := mysql_bind_set.post_execute_noop pb1 hfb1
  refine ⟨pb1, hpre, hfb1, ?_, ?_⟩
  · rintro (h | h)
    · simp [prepared_stmt.execute, hpre, h]
    · cases hb : eng.bind_param_ok with
      | false => simp [prepared_stmt.execute, hpre, hb]
      | true => simp [prepared_stmt.execute, hpre, hb, h]
  · intro h1 h2
    exact ⟨hpost, by simp [prepared_stmt.execute, hpre, h1, h2, hpost]⟩

/-- A concrete one-parameter statement (an `int32_t` bound at slot 0) for
the C4 witness. -/
def c4_stmt : prepared_stmt :=
  ⟨⟨[(zeroBind, some (.num .long_ false 42))]⟩, mysql_bind_set.create 0⟩

/-- Witness for C4 at a concrete bound statement and a succeeding
engine. -/
theorem C4_execute_outcomes_witness :
    ∃ pb1, c4_stmt.param_binds.pre_execute = some pb1 ∧
      pb1.fully_bound = true ∧
      (((⟨true, true⟩ : prepared_stmt.ExecEngine).bind_param_ok = false ∨
        (⟨true, true⟩ : prepared_stmt.ExecEngine).execute_ok = false) →
        prepared_stmt.execute ⟨true, true⟩ c4_stmt =
          some (false, { c4_stmt with param_binds := pb1 })) ∧
      ((⟨true, true⟩ : prepared_stmt.ExecEngine).bind_param_ok = true →
       (⟨true, true⟩ : prepared_stmt.ExecEngine).execute_ok = true →
        pb1.post_execute = some pb1 ∧
        prepared_stmt.execute ⟨true, true⟩ c4_stmt =
          some (true, { c4_stmt with param_binds := pb1 })) :=
  C4_execute_outcomes ⟨true, true⟩ c4_stmt (by decide)

/-- C3: on a statement whose result slots are all bound, `fetch()` has
exactly three outcomes.  It always runs the result Bind Set's
`pre_fetch` first.  (1) If the engine reports no more rows, or any engine
error other than success/truncation (including a `bind_result` failure),
it evaluates to `false`.  (2) If the engine fetch succeeds fully or with
truncation flagged, it runs `post_fetch` (on the engine-written
descriptors) obtaining the refetch index set; if the per-index engine
column-refetch fails for some flagged index it evaluates to `false`;
(3) otherwise it runs `post_refetch` on those indices (a no-op) and
evaluates to `true`. -/
theorem C3_fetch_three_outcomes (eng : prepared_stmt.FetchEngine)
    (st : prepared_stmt) (hfb : st.result_binds.fully_bound = true) :
    ∃ rb1, st.result_binds.pre_fetch = some rb1 ∧
      ((eng.bind_result_ok = false ∨ eng.fetch_rc = .noData ∨
        eng.fetch_rc = .err) →
        prepared_stmt.fetch eng st =
          some (false, { st with result_binds := rb1 })) ∧
      (eng.bind_result_ok = true →
       (eng.fetch_rc = .success ∨ eng.fetch_rc = .truncated) →
        ∃ rb2 idxs,
          (rb1.writeBack eng.row_len eng.row_null).post_fetch =
            some (rb2, idxs) ∧
          rb2.post_refetch idxs = some rb2 ∧
          ((∃ i ∈ idxs, eng.fetch_column_ok i = false) →
            prepared_stmt.fetch eng st =
              some (false, { st with result_binds := rb2 })) ∧
          ((∀ i ∈ idxs, eng.fetch_column_ok i = true) →
            prepared_stmt.fetch eng st =
              some (true, { st with result_binds := rb2 }))) := by
  obtain ⟨rb1, hpre, hsafe⟩ := mysql_bind_set.pre_fetch_defined _ hfb
  refine ⟨rb1, hpre, ?_, ?_⟩
  · rintro (h | h | h)
    · simp [prepared_stmt.fetch, hpre, h]
    · cases hb : eng.bind_result_ok with
      | false => simp [prepared_stmt.fetch, hpre, hb]
      | true => simp [prepared_stmt.fetch, hpre, hb, h]
    · cases hb : eng.bind_result_ok with
      | false => simp [prepared_stmt.fetch, hpre, hb]
      | true => simp [prepared_stmt.fetch, hpre, hb, h]
  · intro hb hrc
    have hsafe' :
        slotsPFSafe ((rb1.writeBack eng.row_len eng.row_null)).slots = true := by
      rw [mysql_bind_set.writeBack_pf_safe]
      exact hsafe
    obtain ⟨rb2, idxs, hpf, hfb2, hlen, hbound⟩ :=
      mysql_bind_set.post_fetch_defined _ hsafe'
    have hpr : rb2.post_refetch idxs = some rb2 :=
      mysql_bind_set.post_refetch_noop rb2 hfb2 idxs
        (fun j hj => by rw [hlen]; exact hbound j hj)
    refine ⟨rb2, idxs, hpf, hpr, ?_, ?_⟩
    · intro hex
      cases hfx : idxs.find? (fun i => !eng.fetch_column_ok i) with
      | none =>
          rw [List.find?_eq_none] at hfx
          obtain ⟨i, hi, hio⟩ := hex
          exact absurd (by simp [hio]) (hfx i hi)
      | some x =>
          rcases hrc with h | h <;>
            simp [prepared_stmt.fetch, hpre, hb, h, hpf, hfx]
    · intro hall
      have hfx : idxs.find? (fun i => !eng.fetch_column_ok i) = none := by
        rw [List.find?_eq_none]
        intro x hx
        simp [hall x hx]
      rcases hrc with h | h <;>
        simp [prepared_stmt.fetch, hpre, hb, h, hpf, hfx, hpr]

/-- A concrete one-result-column statement (a string bound at slot 0) for
the C3 witness. -/
def c3_stmt : prepared_stmt :=
  ⟨mysql_bind_set.create 0, ⟨[(zeroBind, some (.str []))]⟩⟩

/-- A concrete fetch engine for the C3 witness: bind succeeds, the row
fetch reports truncation with a 3-byte non-null column 0, and column
refetch succeeds. -/
def c3_eng : prepared_stmt.FetchEngine :=
  ⟨true, .truncated, fun _ => 3, fun _ => false, fun _ => true⟩

/-- Witness for C3 at the concrete statement and engine. -/
theorem C3_fetch_three_outcomes_witness :
    ∃ rb1, c3_stmt.result_binds.pre_fetch = some rb1 ∧
      ((c3_eng.bind_result_ok = false ∨ c3_eng.fetch_rc = .noData ∨
        c3_eng.fetch_rc = .err) →
        prepared_stmt.fetch c3_eng c3_stmt =
          some (false, { c3_stmt with result_binds := rb1 })) ∧
      (c3_eng.bind_result_ok = true →
       (c3_eng.fetch_rc = .success ∨ c3_eng.fetch_rc = .truncated) →
        ∃ rb2 idxs,
          (rb1.writeBack c3_eng.row_len c3_eng.row_null).post_fetch =
            some (rb2, idxs) ∧
          rb2.post_refetch idxs = some rb2 ∧
          ((∃ i ∈ idxs, c3_eng.fetch_column_ok i = false) →
            prepared_stmt.fetch c3_eng c3_stmt =
              some (false, { c3_stmt with result_binds := rb2 })) ∧
          ((∀ i ∈ idxs, c3_eng.fetch_column_ok i = true) →
            prepared_stmt.fetch c3_eng c3_stmt =
              some (true, { c3_stmt with result_binds := rb2 }))) :=
  C3_fetch_three_outcomes c3_eng c3_stmt (by decide)
